import Mathlib

/- Shallow embedding of the ESP32 animatronic robot controller firmware.
   Primary source: src/unnamed/part_000 (the full-featured variant); the
   functions modelled here are textually identical in src/unnamed/part_001
   except where noted.  A second, smaller model of the
   src/gesture/sketch_aug2a/sketch_aug2a.ino variant lives in the Sketch
   namespace, used by the claims that cite that file.
   Conventions: C `int` is Int, `unsigned long` millisecond timestamps are
   Nat (millis() is monotone within a run, so truncated Nat subtraction
   agrees with the unsigned wrap-around subtraction in the source),
   `String` is Lean String, hardware calls (Serial, servo.write, displays,
   LEDs, WiFi) are external effects with no bearing on the modelled state,
   and calls to millis()/random() inside a function become explicit
   parameters.  C function-static locals become fields of the state. -/

namespace Robot

/-- `const int SERVO_STEP_SIZE = 2;` (degrees per step). -/
def SERVO_STEP_SIZE : Int := 2

/-- `const int SERVO_MOVE_DELAY = 25;` (milliseconds between steps). -/
def SERVO_MOVE_DELAY : Nat := 25

/-- `const unsigned long EMOTION_MODE_DURATION = 12000;`. -/
def EMOTION_MODE_DURATION : Nat := 12000

/-- `const unsigned long BLINK_DURATION = 150;`. -/
def BLINK_DURATION : Nat := 150

/-- The `ServoState` struct of the source. -/
structure ServoState where
  currentPos : Int
  targetPos : Int
  lastMoveTime : Nat
  moving : Bool
  minPos : Int
  maxPos : Int
  name : String
deriving DecidableEq

/-- Global initializer `ServoState headState = {90, 90, 0, false, 45, 135, "HEAD"};`. -/
def headStateInit : ServoState := ⟨90, 90, 0, false, 45, 135, "HEAD"⟩

/-- Global initializer `ServoState leftArmState = {180, 180, 0, false, 0, 180, "LEFT_ARM"};`. -/
def leftArmStateInit : ServoState := ⟨180, 180, 0, false, 0, 180, "LEFT_ARM"⟩

/-- Global initializer `ServoState rightArmState = {0, 0, 0, false, 0, 180, "RIGHT_ARM"};`. -/
def rightArmStateInit : ServoState := ⟨0, 0, 0, false, 0, 180, "RIGHT_ARM"⟩

/-- Arduino `constrain(a, lo, hi)`. -/
def constrain (a lo hi : Int) : Int :=
  if a < lo then lo else if a > hi then hi else a

/-- `moveServoSafely` (part_000 lines 334-348): clamp the requested angle to
    the axis limits; if the clamped value differs from the current target by
    more than 2 degrees, set it as the new target and mark the axis moving. -/
def moveServoSafely (state : ServoState) (targetAngle : Int) : ServoState :=
  if (state.targetPos - constrain targetAngle state.minPos state.maxPos).natAbs > 2 then
    { state with targetPos := constrain targetAngle state.minPos state.maxPos, moving := true }
  else state

/-- The per-axis move of `updateServoPositions`: advance `currentPos` toward
    `targetPos` by at most `SERVO_STEP_SIZE`, clamped so it never overshoots
    (`min`/`max` with the target, exactly as in the source). -/
def servoStepToward (c t : Int) : Int :=
  if c < t then min (c + SERVO_STEP_SIZE) t
  else if c > t then max (c - SERVO_STEP_SIZE) t
  else c

/-- One axis block of `updateServoPositions` (part_000 lines 354-374): if the
    axis is moving and at least `SERVO_MOVE_DELAY` ms have elapsed, step the
    position, record the step time, and clear `moving` when the target is
    reached.  (The `servo.write` call is an external hardware effect.) -/
def stepAxis (now : Nat) (st : ServoState) : ServoState :=
  if st.moving ∧ SERVO_MOVE_DELAY ≤ now - st.lastMoveTime then
    { st with
      currentPos := servoStepToward st.currentPos st.targetPos,
      lastMoveTime := now,
      moving := if servoStepToward st.currentPos st.targetPos = st.targetPos then false
                else st.moving }
  else st

/-- An effective (due) step: calling the axis update at a time at which the
    step interval has certainly elapsed. -/
def dueStep (s : ServoState) : ServoState :=
  stepAxis (s.lastMoveTime + SERVO_MOVE_DELAY) s

/-- `n` successive effective steps. -/
def stepN : Nat → ServoState → ServoState
  | 0, s => s
  | n + 1, s => stepN n (dueStep s)

/-- The events claim C1 quantifies over: a `moveServoSafely` request or an
    `updateServoPositions` tick on one axis. -/
inductive AxisEvent where
  | req : Int → AxisEvent
  | tick : Nat → AxisEvent

def applyAxisEvent (s : ServoState) : AxisEvent → ServoState
  | AxisEvent.req a => moveServoSafely s a
  | AxisEvent.tick now => stepAxis now s

def runAxis (s : ServoState) (es : List AxisEvent) : ServoState :=
  es.foldl applyAxisEvent s

/-- The bounds invariant of one axis. -/
def axisInBounds (s : ServoState) : Prop :=
  s.minPos ≤ s.currentPos ∧ s.currentPos ≤ s.maxPos ∧
  s.minPos ≤ s.targetPos ∧ s.targetPos ≤ s.maxPos

instance (s : ServoState) : Decidable (axisInBounds s) := by
  unfold axisInBounds; infer_instance


/-- The global mutable state of part_000 relevant to the modelled functions.
    The three fields prefixed `ht_` model the C function-static locals
    `lastMoveTime`, `currentDirection` and `movementSpeed` of the person-count
    branch inside `processPendingRequests`. -/
structure RobotState where
  current_emotion : String
  current_sentiment : String
  emotion_mode_active : Bool
  head_tracking_enabled : Bool
  emotion_mode_start : Nat
  lastBlinkTime : Nat
  nextBlinkInterval : Nat
  isBlinking : Bool
  blinkStartTime : Nat
  eyesOpen : Bool
  pendingEmotion : Bool
  pendingEmotionValue : String
  pendingHead : Bool
  pendingHeadNumber : Int
  pendingHeadAngle : Int
  pendingReset : Bool
  resetAcknowledged : Bool
  resetStartTime : Nat
  headState : ServoState
  leftArmState : ServoState
  rightArmState : ServoState
  ht_lastMoveTime : Nat
  ht_currentDirection : Int
  ht_movementSpeed : Int
deriving DecidableEq

/-- The state after the global initializers and `setup()` (setup re-assigns
    the same servo positions the initializers already set). -/
def initialState : RobotState :=
  { current_emotion := "happy"
    current_sentiment := "happy"
    emotion_mode_active := false
    head_tracking_enabled := true
    emotion_mode_start := 0
    lastBlinkTime := 0
    nextBlinkInterval := 3000
    isBlinking := false
    blinkStartTime := 0
    eyesOpen := true
    pendingEmotion := false
    pendingEmotionValue := ""
    pendingHead := false
    pendingHeadNumber := -1
    pendingHeadAngle := -1
    pendingReset := false
    resetAcknowledged := false
    resetStartTime := 0
    headState := headStateInit
    leftArmState := leftArmStateInit
    rightArmState := rightArmStateInit
    ht_lastMoveTime := 0
    ht_currentDirection := 1
    ht_movementSpeed := 5 }

/-- An HTTP reply, as produced by `request->send(code, "application/json", body)`. -/
structure Response where
  code : Nat
  body : String
deriving DecidableEq

/-- The parsed body of a `POST /receive` request: the `"sentiment"` field if
    present.  (Malformed JSON is rejected with 400 by `deserializeJson`
    before any state is touched; that transport-level path is out of scope.) -/
structure ReceiveDoc where
  sentiment : Option String
deriving DecidableEq

/-- The parsed body of a `POST /head` request. -/
structure HeadDoc where
  number : Option Int
  angle : Option Int
deriving DecidableEq

/-- The parsed body of a `POST /head_position` request. -/
structure HeadPosDoc where
  x : Option Int
  frame_width : Option Int
deriving DecidableEq

/-- Arduino `map(x, in_min, in_max, out_min, out_max)`:
    `(x - in_min) * (out_max - out_min) / (in_max - in_min) + out_min` with
    C integer division (truncation toward zero, `Int.tdiv`). -/
def arduinoMap (x inMin inMax outMin outMax : Int) : Int :=
  ((x - inMin) * (outMax - outMin)).tdiv (inMax - inMin) + outMin

/-- Arduino `String::toLowerCase()`: ASCII tolower applied to every
    character. -/
def toLowerCase (s : String) : String := ⟨s.data.map Char.toLower⟩

/-- `onReceiveHandler` (part_000 lines 823-862): lower-case the sentiment and
    queue it in the single-slot emotion mailbox (last write wins). -/
def onReceiveHandler (doc : ReceiveDoc) (s : RobotState) : RobotState × Response :=
  match doc.sentiment with
  | none => (s, ⟨400, "\x7b\"error\":\"missing_sentiment\"\x7d"⟩)
  | some sent =>
    ({ s with pendingEmotionValue := toLowerCase sent, pendingEmotion := true },
     ⟨200, "\x7b\"status\":\"emotion_queued\",\"emotion\":\"" ++ toLowerCase sent ++ "\"\x7d"⟩)

/-- `onHeadHandler` (part_000 lines 864-917): the `"number"` key is checked
    first, then `"angle"`; whichever matches overwrites the single-slot head
    mailbox, setting the other payload to the -1 sentinel. -/
def onHeadHandler (doc : HeadDoc) (s : RobotState) : RobotState × Response :=
  match doc.number with
  | some number =>
    ({ s with pendingHeadNumber := number, pendingHeadAngle := -1, pendingHead := true },
     ⟨200, "\x7b\"status\":\"head_number_queued\",\"number\":" ++ toString number ++ "\x7d"⟩)
  | none =>
    match doc.angle with
    | some angle =>
      ({ s with pendingHeadAngle := angle, pendingHeadNumber := -1, pendingHead := true },
       ⟨200, "\x7b\"status\":\"head_angle_queued\",\"angle\":" ++ toString angle ++ "\x7d"⟩)
    | none => (s, ⟨400, "\x7b\"error\":\"missing_number_or_angle\"\x7d"⟩)

/-- `onHeadPositionHandler` (part_000 lines 919-973): linearly map the pixel
    x coordinate onto the head axis range and queue the result as a head
    angle, unless emotion mode is active or tracking is disabled. -/
def onHeadPositionHandler (doc : HeadPosDoc) (s : RobotState) : RobotState × Response :=
  match doc.x, doc.frame_width with
  | some personX, some frameWidth =>
    if s.emotion_mode_active = false ∧ s.head_tracking_enabled = true then
      ({ s with
          pendingHeadAngle := arduinoMap personX 0 frameWidth s.headState.minPos s.headState.maxPos,
          pendingHeadNumber := -1, pendingHead := true },
       ⟨200, "\x7b\"status\":\"head_position_queued\",\"angle\":"
         ++ toString (arduinoMap personX 0 frameWidth s.headState.minPos s.headState.maxPos)
         ++ "\x7d"⟩)
    else (s, ⟨200, "\x7b\"status\":\"ignored_emotion_mode\"\x7d"⟩)
  | _, _ => (s, ⟨400, "\x7b\"error\":\"missing_x_or_frame_width\"\x7d"⟩)

/-- `onResetHandler` (part_000 lines 975-981). -/
def onResetHandler (s : RobotState) : RobotState × Response :=
  ({ s with pendingReset := true },
   ⟨200, "\x7b\"status\":\"reset_acknowledged\",\"delay\":\"5_seconds\"\x7d"⟩)

/-- `onStatusHandler` (part_000 lines 983-1004).  The hardware/environment
    readings (OLED and LED flags, WiFi status, free heap, millis) are
    parameters. -/
def statusJson (s : RobotState) (leftOled rightOled ledStrip wifiConnected : Bool)
    (freeHeap uptime : Nat) : String :=
  "\x7b\"emotion\":\"" ++ s.current_emotion ++ "\"," ++
  "\"sentiment\":\"" ++ s.current_sentiment ++ "\"," ++
  "\"head_pos\":" ++ toString s.headState.currentPos ++ "," ++
  "\"left_arm_pos\":" ++ toString s.leftArmState.currentPos ++ "," ++
  "\"right_arm_pos\":" ++ toString s.rightArmState.currentPos ++ "," ++
  "\"emotion_mode\":" ++ (if s.emotion_mode_active then "true" else "false") ++ "," ++
  "\"head_tracking\":" ++ (if s.head_tracking_enabled then "true" else "false") ++ "," ++
  "\"left_oled\":" ++ (if leftOled then "true" else "false") ++ "," ++
  "\"right_oled\":" ++ (if rightOled then "true" else "false") ++ "," ++
  "\"led_strip\":" ++ (if ledStrip then "true" else "false") ++ "," ++
  "\"wifi_connected\":" ++ (if wifiConnected then "true" else "false") ++ "," ++
  "\"eyes_open\":" ++ (if s.eyesOpen then "true" else "false") ++ "," ++
  "\"blinking\":" ++ (if s.isBlinking then "true" else "false") ++ "," ++
  "\"reset_pending\":" ++ (if s.resetAcknowledged then "true" else "false") ++ "," ++
  "\"free_heap\":" ++ toString freeHeap ++ "," ++
  "\"uptime\":" ++ toString uptime ++ "\x7d"

/-- The reset section of `processPendingRequests` (part_000 lines 600-651):
    acknowledge a pending reset, and once 5000 ms have elapsed restore the
    default state.  `rndBlink` is the `random(2000, 5000)` draw for the next
    blink interval; the LED flashes, prints and the print-only static
    `lastCountdown` are external effects. -/
def processResetRequest (now : Nat) (rndBlink : Nat) (s : RobotState) : RobotState :=
  let s :=
    if s.pendingReset ∧ s.resetAcknowledged = false then
      { s with resetAcknowledged := true, resetStartTime := now, pendingReset := false }
    else s
  if s.resetAcknowledged then
    if 5000 ≤ now - s.resetStartTime then
      let s := { s with
        resetAcknowledged := false,
        current_emotion := "happy", current_sentiment := "happy",
        emotion_mode_active := false, head_tracking_enabled := true }
      { s with
        headState := moveServoSafely s.headState 90,
        leftArmState := moveServoSafely s.leftArmState 180,
        rightArmState := moveServoSafely s.rightArmState 0,
        lastBlinkTime := now, nextBlinkInterval := rndBlink,
        isBlinking := false, eyesOpen := true }
    else s
  else s

/-- The emotion section of `processPendingRequests` (part_000 lines 653-717):
    drain the emotion mailbox, enter emotion mode, and request the per-label
    arm/head pose.  The eye redraw and LED effects are external. -/
def processEmotionRequest (now : Nat) (s : RobotState) : RobotState :=
  if s.pendingEmotion then
    let emotion := s.pendingEmotionValue
    let s := { s with
      pendingEmotion := false, pendingEmotionValue := "",
      current_sentiment := emotion, current_emotion := emotion,
      emotion_mode_active := true, head_tracking_enabled := false,
      emotion_mode_start := now }
    if emotion = "sad" ∨ emotion = "sadness" ∨ emotion = "fear" ∨ emotion = "scared" then
      { s with
        leftArmState := moveServoSafely s.leftArmState 90,
        rightArmState := moveServoSafely s.rightArmState 90,
        headState := moveServoSafely s.headState 70 }
    else if emotion = "angry" ∨ emotion = "anger" then
      { s with
        leftArmState := moveServoSafely s.leftArmState 45,
        rightArmState := moveServoSafely s.rightArmState 135,
        headState := moveServoSafely s.headState 95 }
    else if emotion = "surprise" ∨ emotion = "surprised" then
      { s with
        leftArmState := moveServoSafely s.leftArmState 120,
        rightArmState := moveServoSafely s.rightArmState 60,
        headState := moveServoSafely s.headState 85 }
    else if emotion = "happy" ∨ emotion = "joy" then
      { s with
        leftArmState := moveServoSafely s.leftArmState 160,
        rightArmState := moveServoSafely s.rightArmState 20,
        headState := moveServoSafely s.headState 95 }
    else
      { s with
        leftArmState := moveServoSafely s.leftArmState 180,
        rightArmState := moveServoSafely s.rightArmState 0,
        headState := moveServoSafely s.headState 90 }
  else s

/-- The head section of `processPendingRequests` (part_000 lines 720-794):
    drain the head mailbox (clearing it regardless of the gate), and only when
    emotion mode is inactive and tracking enabled act on a direct angle
    (`angle != -1`) or a person count (`number != -1`).  `rnd` is the
    `random(0, 100)` draw of the tracking branch.  For a person count
    `number <= -2` neither branch of the source assigns `newAngle`
    (uninitialized read, undefined behavior in C); it is modelled as
    requesting the current position, a no-op move. -/
def processHeadRequest (now : Nat) (rnd : Int) (s : RobotState) : RobotState :=
  if s.pendingHead then
    let number := s.pendingHeadNumber
    let angle := s.pendingHeadAngle
    let s := { s with pendingHead := false, pendingHeadNumber := -1, pendingHeadAngle := -1 }
    if s.emotion_mode_active = false ∧ s.head_tracking_enabled = true then
      if angle ≠ -1 then
        { s with headState :=
            moveServoSafely s.headState (constrain angle s.headState.minPos s.headState.maxPos) }
      else if number ≠ -1 then
        if 2000 < now - s.ht_lastMoveTime then
          if number = 0 then
            let na := s.headState.currentPos + s.ht_currentDirection * s.ht_movementSpeed
            if na ≥ s.headState.maxPos then
              { s with headState := moveServoSafely s.headState s.headState.maxPos,
                       ht_currentDirection := -1, ht_lastMoveTime := now }
            else if na ≤ s.headState.minPos then
              { s with headState := moveServoSafely s.headState s.headState.minPos,
                       ht_currentDirection := 1, ht_lastMoveTime := now }
            else
              { s with headState := moveServoSafely s.headState na,
                       ht_lastMoveTime := now }
          else if number ≥ 1 then
            let na := s.headState.currentPos + s.ht_currentDirection * 8
            let dir := if rnd < 30 then -s.ht_currentDirection else s.ht_currentDirection
            if na ≥ s.headState.maxPos then
              { s with headState := moveServoSafely s.headState s.headState.maxPos,
                       ht_currentDirection := -1, ht_movementSpeed := 8, ht_lastMoveTime := now }
            else if na ≤ s.headState.minPos then
              { s with headState := moveServoSafely s.headState s.headState.minPos,
                       ht_currentDirection := 1, ht_movementSpeed := 8, ht_lastMoveTime := now }
            else
              { s with headState := moveServoSafely s.headState na,
                       ht_currentDirection := dir, ht_movementSpeed := 8, ht_lastMoveTime := now }
          else
            { s with headState := moveServoSafely s.headState s.headState.currentPos,
                     ht_lastMoveTime := now }
        else s
      else s
    else s
  else s

/-- `processPendingRequests` (part_000 lines 598-795): the reset, emotion and
    head sections run in this order within one call. -/
def processPendingRequests (now : Nat) (rnd : Int) (rndBlink : Nat) (s : RobotState) :
    RobotState :=
  processHeadRequest now rnd (processEmotionRequest now (processResetRequest now rndBlink s))

/-- `updateServoPositions` (part_000 lines 350-409, identical in part_001
    lines 118-177): the three per-axis blocks, written out as in the source. -/
def updateServoPositions (now : Nat) (s : RobotState) : RobotState :=
  let s :=
    if s.headState.moving ∧ SERVO_MOVE_DELAY ≤ now - s.headState.lastMoveTime then
      { s with headState := { s.headState with
          currentPos := servoStepToward s.headState.currentPos s.headState.targetPos,
          lastMoveTime := now,
          moving :=
            if servoStepToward s.headState.currentPos s.headState.targetPos
                = s.headState.targetPos then false
            else s.headState.moving } }
    else s
  let s :=
    if s.leftArmState.moving ∧ SERVO_MOVE_DELAY ≤ now - s.leftArmState.lastMoveTime then
      { s with leftArmState := { s.leftArmState with
          currentPos := servoStepToward s.leftArmState.currentPos s.leftArmState.targetPos,
          lastMoveTime := now,
          moving :=
            if servoStepToward s.leftArmState.currentPos s.leftArmState.targetPos
                = s.leftArmState.targetPos then false
            else s.leftArmState.moving } }
    else s
  if s.rightArmState.moving ∧ SERVO_MOVE_DELAY ≤ now - s.rightArmState.lastMoveTime then
    { s with rightArmState := { s.rightArmState with
        currentPos := servoStepToward s.rightArmState.currentPos s.rightArmState.targetPos,
        lastMoveTime := now,
        moving :=
          if servoStepToward s.rightArmState.currentPos s.rightArmState.targetPos
              = s.rightArmState.targetPos then false
          else s.rightArmState.moving } }
  else s

/-- `updateEyeBlinking` (part_000 lines 539-574).  `rndInterval` is the
    `random(2000, 5000)` draw. -/
def updateEyeBlinking (now : Nat) (rndInterval : Nat) (s : RobotState) : RobotState :=
  if s.isBlinking then
    if BLINK_DURATION ≤ now - s.blinkStartTime then
      { s with isBlinking := false, eyesOpen := true,
               nextBlinkInterval := rndInterval, lastBlinkTime := now }
    else s
  else
    if s.nextBlinkInterval ≤ now - s.lastBlinkTime then
      { s with isBlinking := true, eyesOpen := false, blinkStartTime := now }
    else s

/-- The emotion-timeout check of `loop()` (part_000 lines 1207-1222). -/
def loopTimeoutCheck (now : Nat) (s : RobotState) : RobotState :=
  if s.emotion_mode_active ∧ EMOTION_MODE_DURATION < now - s.emotion_mode_start then
    let s := { s with
      emotion_mode_active := false, head_tracking_enabled := true,
      current_emotion := "happy", current_sentiment := "happy" }
    { s with
      headState := moveServoSafely s.headState 90,
      leftArmState := moveServoSafely s.leftArmState 180,
      rightArmState := moveServoSafely s.rightArmState 0 }
  else s

/-- One iteration of `loop()` (part_000 lines 1193-1300), restricted to the
    state-relevant steps in source order: drain the mailboxes, advance the
    servos, advance blinking, check the emotion timeout.  The WiFi health
    check, heartbeat and debug prints touch none of the modelled state. -/
def loopIter (now : Nat) (rnd : Int) (rbReset rbBlink : Nat) (s : RobotState) : RobotState :=
  loopTimeoutCheck now
    (updateEyeBlinking now rbBlink
      (updateServoPositions now
        (processPendingRequests now rnd rbReset s)))

end Robot

/- Model of the src/gesture/sketch_aug2a/sketch_aug2a.ino variant, for the
   claims that cite it.  It shares the `ServoState` shape (that variant's
   struct has no `name` field; the field is kept and left `""`). -/

namespace Sketch

open Robot (ServoState Response ReceiveDoc HeadDoc constrain)

/-- The `SimpleTask` struct of sketch_aug2a. -/
structure SimpleTask where
  has_emotion_task : Bool
  has_head_task : Bool
  emotion_data : String
  head_angle : Int
  task_time : Nat
deriving DecidableEq

/-- The global state of sketch_aug2a relevant to the modelled functions. -/
structure SketchState where
  current_emotion : String
  emotion_mode_active : Bool
  head_tracking_enabled : Bool
  server_busy : Bool
  currentTask : SimpleTask
  headState : ServoState
  leftArmState : ServoState
  rightArmState : ServoState
deriving DecidableEq

/-- sketch_aug2a global initializers (`currentTask = {false, false, "", 90, 0}`,
    head limits 60..120). -/
def initialSketchState : SketchState :=
  ⟨"happy", false, true, false, ⟨false, false, "", 90, 0⟩,
   ⟨90, 90, 0, false, 60, 120, ""⟩,
   ⟨180, 180, 0, false, 0, 180, ""⟩,
   ⟨0, 0, 0, false, 0, 180, ""⟩⟩

/-- sketch_aug2a `moveServoSafely` (lines 122-132): same shape as part_000 but
    with a 3-degree deadband. -/
def moveServoSafely (state : ServoState) (targetAngle : Int) : ServoState :=
  if (state.targetPos - constrain targetAngle state.minPos state.maxPos).natAbs > 3 then
    { state with targetPos := constrain targetAngle state.minPos state.maxPos, moving := true }
  else state

/-- sketch_aug2a `handleReceiveRequest` (lines 343-376): note the sentiment is
    queued verbatim, with no lower-casing. -/
def handleReceiveRequest (doc : ReceiveDoc) (t : SketchState) : SketchState × Response :=
  if t.server_busy then (t, ⟨503, "\x7b\"error\":\"busy\"\x7d"⟩)
  else
    match doc.sentiment with
    | some sentiment =>
      ({ t with currentTask :=
          { t.currentTask with has_emotion_task := true, emotion_data := sentiment } },
       ⟨200, "\x7b\"status\":\"ok\"\x7d"⟩)
    | none => (t, ⟨400, "\x7b\"error\":\"missing\"\x7d"⟩)

/-- sketch_aug2a `handleHeadRequest` (lines 378-412): rejected outright while
    emotion mode is active (or the server is busy); otherwise the `"angle"`
    key is checked before `"number"`. -/
def handleHeadRequest (doc : HeadDoc) (t : SketchState) : SketchState × Response :=
  if t.server_busy ∨ t.emotion_mode_active then (t, ⟨503, "\x7b\"status\":\"blocked\"\x7d"⟩)
  else
    match doc.angle with
    | some angle =>
      ({ t with currentTask :=
          { t.currentTask with has_head_task := true, head_angle := angle } },
       ⟨200, "\x7b\"status\":\"ok\"\x7d"⟩)
    | none =>
      match doc.number with
      | some people =>
        let angle := 90 + (if people > 1 then (people - 1) * 5 else 0)
        ({ t with currentTask :=
            { t.currentTask with has_head_task := true, head_angle := angle } },
         ⟨200, "\x7b\"status\":\"ok\"\x7d"⟩)
      | none => (t, ⟨400, "\x7b\"error\":\"missing\"\x7d"⟩)

/-- sketch_aug2a `updateArmPose` (lines 295-307), driven by `current_emotion`
    string comparison (which only matches lower-case labels). -/
def updateArmPose (t : SketchState) : SketchState :=
  if t.current_emotion = "sad" ∨ t.current_emotion = "fear" then
    { t with rightArmState := moveServoSafely t.rightArmState 90,
             leftArmState := moveServoSafely t.leftArmState 90 }
  else if t.current_emotion = "angry" then
    { t with rightArmState := moveServoSafely t.rightArmState 150,
             leftArmState := moveServoSafely t.leftArmState 30 }
  else
    { t with rightArmState := moveServoSafely t.rightArmState 0,
             leftArmState := moveServoSafely t.leftArmState 180 }

/-- sketch_aug2a `processSimpleTasks` (lines 310-340). -/
def processSimpleTasks (now : Nat) (t : SketchState) : SketchState :=
  let t :=
    if t.currentTask.has_emotion_task then
      let t := { t with
        current_emotion := t.currentTask.emotion_data,
        emotion_mode_active := true, head_tracking_enabled := false,
        currentTask := { t.currentTask with task_time := now } }
      let t := updateArmPose t
      let t := { t with headState := moveServoSafely t.headState 75 }
      { t with currentTask := { t.currentTask with has_emotion_task := false } }
    else t
  if t.currentTask.has_head_task ∧ t.emotion_mode_active = false then
    let t := { t with headState :=
        moveServoSafely t.headState (constrain t.currentTask.head_angle 70 110) }
    { t with currentTask := { t.currentTask with has_head_task := false } }
  else t

/-- sketch_aug2a `checkEmotionTimeout` (lines 195-205), with its 8000 ms
    timeout. -/
def checkEmotionTimeout (now : Nat) (t : SketchState) : SketchState :=
  if t.emotion_mode_active ∧ 8000 < now - t.currentTask.task_time then
    let t := { t with
      emotion_mode_active := false, head_tracking_enabled := true,
      current_emotion := "happy" }
    let t := updateArmPose t
    { t with headState := moveServoSafely t.headState 90 }
  else t

end Sketch

namespace Robot

/- A concrete reachable execution of part_000, used for claim C5: two direct
   head-angle requests leave the head target at 88 (inside the 2-degree
   deadband of the neutral 90), then an unrecognized emotion activates
   emotion mode without moving the head, and finally the emotion timeout
   fires.  Each `loopIter` is one iteration of `loop()`; the handler calls
   happen in the network context between iterations. -/

/-- Trace state after posting `POST /head` with angle 85 and running one loop
    iteration at t = 100 ms. -/
def c5s1 : RobotState := loopIter 100 0 3000 3000 (onHeadHandler ⟨none, some 85⟩ initialState).1

/-- Trace state after then posting angle 88 and running one loop iteration at
    t = 200 ms. -/
def c5s2 : RobotState := loopIter 200 0 3000 3000 (onHeadHandler ⟨none, some 88⟩ c5s1).1

/-- Trace state after then posting the (unrecognized, already lower-case)
    sentiment "xyz" and running one loop iteration at t = 300 ms. -/
def c5s3 : RobotState := loopIter 300 0 3000 3000 (onReceiveHandler ⟨some "xyz"⟩ c5s2).1

/-- Trace state after one more loop iteration at t = 12500 ms, at which the
    emotion-mode timeout has elapsed. -/
def c5s4 : RobotState := loopIter 12500 0 3000 3000 c5s3

/-- A part_000 state with emotion mode active, for concrete gate checks. -/
def robotEmotionActiveState : RobotState :=
  { initialState with emotion_mode_active := true }

/-- A sketch_aug2a state with emotion mode active, for concrete gate checks. -/
def sketchEmotionActiveState : Sketch.SketchState :=
  { Sketch.initialSketchState with emotion_mode_active := true }

end Robot

/- ===== Helper lemmas ===== -/

namespace Robot

lemma constrain_bounds (a lo hi : Int) (h : lo ≤ hi) :
    lo ≤ constrain a lo hi ∧ constrain a lo hi ≤ hi := by
  unfold constrain; split_ifs <;> omega

lemma servoStepToward_between (c t : Int) :
    min c t ≤ servoStepToward c t ∧ servoStepToward c t ≤ max c t := by
  unfold servoStepToward SERVO_STEP_SIZE; split_ifs <;> omega

lemma servoStepToward_dist (c t : Int) :
    (t - servoStepToward c t).natAbs = (t - c).natAbs - min 2 (t - c).natAbs := by
  unfold servoStepToward SERVO_STEP_SIZE; split_ifs <;> omega

lemma servoStepToward_eq_iff (c t : Int) :
    servoStepToward c t = t ↔ (t - c).natAbs ≤ 2 := by
  unfold servoStepToward SERVO_STEP_SIZE; split_ifs <;> omega

lemma stepAxis_preserve (now : Nat) (a : ServoState) :
    (stepAxis now a).targetPos = a.targetPos ∧ (stepAxis now a).minPos = a.minPos ∧
    (stepAxis now a).maxPos = a.maxPos ∧ (stepAxis now a).name = a.name := by
  unfold stepAxis; split_ifs <;> exact ⟨rfl, rfl, rfl, rfl⟩

lemma stepAxis_of_not_moving (now : Nat) (s : ServoState) (h : s.moving = false) :
    stepAxis now s = s := by
  simp [stepAxis, h]

lemma dueStep_of_moving (s : ServoState) (h : s.moving = true) :
    dueStep s = { s with
      currentPos := servoStepToward s.currentPos s.targetPos,
      lastMoveTime := s.lastMoveTime + SERVO_MOVE_DELAY,
      moving := if servoStepToward s.currentPos s.targetPos = s.targetPos then false
                else true } := by
  have hdue : SERVO_MOVE_DELAY ≤ s.lastMoveTime + SERVO_MOVE_DELAY - s.lastMoveTime := by
    omega
  simp [dueStep, stepAxis, h, hdue]

lemma dueStep_targetPos (s : ServoState) : (dueStep s).targetPos = s.targetPos :=
  (stepAxis_preserve _ _).1

lemma stepN_of_not_moving (n : Nat) :
    ∀ s : ServoState, s.moving = false → stepN n s = s := by
  induction n with
  | zero => intro s _; rfl
  | succ n ih =>
    intro s h
    show stepN n (dueStep s) = s
    rw [dueStep, stepAxis_of_not_moving _ _ h, ih s h]

lemma stepN_targetPos (n : Nat) : ∀ s : ServoState, (stepN n s).targetPos = s.targetPos := by
  induction n with
  | zero => intro s; rfl
  | succ n ih =>
    intro s
    show (stepN n (dueStep s)).targetPos = s.targetPos
    rw [ih, dueStep_targetPos]

lemma stepN_reaches (n : Nat) : ∀ s : ServoState, s.moving = true →
    (s.targetPos - s.currentPos).natAbs ≤ 2 * n →
    (stepN n s).currentPos = s.targetPos ∧ (1 ≤ n → (stepN n s).moving = false) := by
  induction n with
  | zero =>
    intro s _ hd
    refine ⟨?_, fun h => absurd h (by omega)⟩
    show s.currentPos = s.targetPos
    omega
  | succ n ih =>
    intro s hm hd
    have hds := dueStep_of_moving s hm
    by_cases hreach : servoStepToward s.currentPos s.targetPos = s.targetPos
    · have hmov : (dueStep s).moving = false := by rw [hds]; simp [hreach]
      have hfix : stepN n (dueStep s) = dueStep s := stepN_of_not_moving n _ hmov
      constructor
      · show (stepN n (dueStep s)).currentPos = s.targetPos
        rw [hfix, hds]
        exact hreach
      · intro _
        show (stepN n (dueStep s)).moving = false
        rw [hfix]; exact hmov
    · have hmov : (dueStep s).moving = true := by rw [hds]; simp [hreach, hm]
      have hgt : ¬ ((s.targetPos - s.currentPos).natAbs ≤ 2) := by
        intro hle; exact hreach ((servoStepToward_eq_iff _ _).2 hle)
      have hdist : ((dueStep s).targetPos - (dueStep s).currentPos).natAbs ≤ 2 * n := by
        rw [hds]
        have := servoStepToward_dist s.currentPos s.targetPos
        simp only
        omega
      have hrec := ih (dueStep s) hmov hdist
      constructor
      · show (stepN n (dueStep s)).currentPos = s.targetPos
        rw [hrec.1, dueStep_targetPos]
      · intro _
        rcases Nat.eq_zero_or_pos n with h0 | hpos
        · exfalso
          subst h0
          have := servoStepToward_dist s.currentPos s.targetPos
          have hz : ((dueStep s).targetPos - (dueStep s).currentPos).natAbs = 0 := by omega
          rw [hds] at hz
          simp only at hz
          exact hreach (by omega)
        · exact hrec.2 hpos

lemma dueStep_sync (s : ServoState) (h : s.moving = true) :
    ((dueStep s).moving = false ↔ (dueStep s).currentPos = (dueStep s).targetPos) := by
  rw [dueStep_of_moving s h]
  by_cases hreach : servoStepToward s.currentPos s.targetPos = s.targetPos <;>
    simp [hreach]

lemma stepN_sync (n : Nat) : ∀ s : ServoState,
    (s.moving = false ↔ s.currentPos = s.targetPos) →
    ((stepN n s).moving = false ↔ (stepN n s).currentPos = (stepN n s).targetPos) := by
  induction n with
  | zero => intro s h; exact h
  | succ n ih =>
    intro s h
    show (stepN n (dueStep s)).moving = false ↔
      (stepN n (dueStep s)).currentPos = (stepN n (dueStep s)).targetPos
    cases hm : s.moving with
    | false =>
      rw [dueStep, stepAxis_of_not_moving _ _ hm]
      exact ih s h
    | true => exact ih (dueStep s) (dueStep_sync s hm)

lemma stepN_between (n : Nat) : ∀ s : ServoState,
    min s.currentPos s.targetPos ≤ (stepN n s).currentPos ∧
    (stepN n s).currentPos ≤ max s.currentPos s.targetPos := by
  induction n with
  | zero => intro s; exact ⟨min_le_left _ _, le_max_left _ _⟩
  | succ n ih =>
    intro s
    show min s.currentPos s.targetPos ≤ (stepN n (dueStep s)).currentPos ∧
      (stepN n (dueStep s)).currentPos ≤ max s.currentPos s.targetPos
    cases hm : s.moving with
    | false =>
      rw [dueStep, stepAxis_of_not_moving _ _ hm]
      exact ih s
    | true =>
      have hds := dueStep_of_moving s hm
      have h1 := ih (dueStep s)
      have hb := servoStepToward_between s.currentPos s.targetPos
      rw [hds] at h1 ⊢
      dsimp only at h1 ⊢
      constructor <;> omega

lemma moveServoSafely_inv (s : ServoState) (a : Int) (h : axisInBounds s) :
    axisInBounds (moveServoSafely s a) := by
  obtain ⟨h1, h2, h3, h4⟩ := h
  have hb := constrain_bounds a s.minPos s.maxPos (by omega)
  unfold moveServoSafely
  split_ifs with hc
  · exact ⟨h1, h2, hb.1, hb.2⟩
  · exact ⟨h1, h2, h3, h4⟩

lemma stepAxis_inv (now : Nat) (s : ServoState) (h : axisInBounds s) :
    axisInBounds (stepAxis now s) := by
  obtain ⟨h1, h2, h3, h4⟩ := h
  have hb := servoStepToward_between s.currentPos s.targetPos
  unfold stepAxis axisInBounds
  split_ifs <;> refine ⟨?_, ?_, ?_, ?_⟩ <;> dsimp only <;> omega

lemma runAxis_inv (es : List AxisEvent) : ∀ s : ServoState,
    axisInBounds s → axisInBounds (runAxis s es) := by
  induction es with
  | nil => intro s h; exact h
  | cons e es ih =>
    intro s h
    show axisInBounds (es.foldl applyAxisEvent (applyAxisEvent s e))
    apply ih
    cases e with
    | req a => exact moveServoSafely_inv s a h
    | tick now => exact stepAxis_inv now s h

lemma processEmotionRequest_not_pending (now : Nat) (x : RobotState)
    (hx : x.pendingEmotion = false) : processEmotionRequest now x = x := by
  simp [processEmotionRequest, hx]

lemma processHeadRequest_not_pending (now : Nat) (rnd : Int) (x : RobotState)
    (hx : x.pendingHead = false) : processHeadRequest now rnd x = x := by
  simp [processHeadRequest, hx]

lemma processResetRequest_idle (now rb : Nat) (x : RobotState)
    (h1 : x.pendingReset = false) (h2 : x.resetAcknowledged = false) :
    processResetRequest now rb x = x := by
  simp [processResetRequest, h1, h2]

lemma processEmotionRequest_clears (now : Nat) (x : RobotState) :
    (processEmotionRequest now x).pendingEmotion = false := by
  by_cases hp : x.pendingEmotion = true
  · unfold processEmotionRequest
    simp only [hp, if_true]
    split_ifs <;> rfl
  · rw [processEmotionRequest_not_pending now x (by simpa using hp)]
    simpa using hp

lemma processHeadRequest_gate_closed (now : Nat) (rnd : Int) (x : RobotState)
    (h2 : x.emotion_mode_active = true) :
    processHeadRequest now rnd x
      = if x.pendingHead then
          { x with pendingHead := false, pendingHeadNumber := -1, pendingHeadAngle := -1 }
        else x := by
  by_cases hp : x.pendingHead = true
  · simp [processHeadRequest, hp, h2]
  · have hp' : x.pendingHead = false := by revert hp; cases x.pendingHead <;> simp
    simp [processHeadRequest, hp']

lemma processHeadRequest_clears (now : Nat) (rnd : Int) (x : RobotState) :
    (processHeadRequest now rnd x).pendingHead = false := by
  by_cases hp : x.pendingHead = true
  · unfold processHeadRequest
    simp only [hp, if_true]
    split_ifs <;> rfl
  · rw [processHeadRequest_not_pending now rnd x (by simpa using hp)]
    simpa using hp

/- ===== Claim theorems ===== -/

/-- C1: for every servo axis and every sequence of `moveServoSafely` requests
    interleaved with `updateServoPositions` ticks, starting from the initial
    poses, `minPos ≤ currentPos ≤ maxPos` holds at every tick; moreover
    `moveServoSafely` clamps the requested angle into `[minPos, maxPos]`
    before it can become the target. -/
theorem servo_bounds_invariant (es : List AxisEvent) (s0 : ServoState)
    (h0 : s0 = headStateInit ∨ s0 = leftArmStateInit ∨ s0 = rightArmStateInit) :
    axisInBounds (runAxis s0 es)
    ∧ ∀ (s : ServoState) (a : Int),
        (moveServoSafely s a).targetPos = s.targetPos
        ∨ ((moveServoSafely s a).targetPos = constrain a s.minPos s.maxPos
           ∧ (s.minPos ≤ s.maxPos →
               s.minPos ≤ (moveServoSafely s a).targetPos
               ∧ (moveServoSafely s a).targetPos ≤ s.maxPos)) := by
  constructor
  · apply runAxis_inv
    rcases h0 with rfl | rfl | rfl <;> decide
  · intro s a
    unfold moveServoSafely
    split_ifs with hc
    · right
      exact ⟨rfl, fun hle => constrain_bounds a s.minPos s.maxPos hle⟩
    · left; rfl

/-- Witness for C1 at a concrete event sequence on the head axis. -/
theorem servo_bounds_invariant_witness :
    axisInBounds (runAxis headStateInit
      [AxisEvent.req 500, AxisEvent.tick 30, AxisEvent.tick 60,
       AxisEvent.req (-20), AxisEvent.tick 90]) :=
  (servo_bounds_invariant _ headStateInit (Or.inl rfl)).1

/-- C2: a moving axis with an in-bounds target converges to the target in
    ceil(|target - current| / SERVO_STEP_SIZE) effective steps, never
    overshoots, and after at least one effective step the `moving` flag is
    false exactly when the position has reached the target. -/
theorem servo_step_convergence (s : ServoState) (hm : s.moving = true)
    (_hlo : s.minPos ≤ s.targetPos) (_hhi : s.targetPos ≤ s.maxPos) :
    (stepN (((s.targetPos - s.currentPos).natAbs + 1) / 2) s).currentPos = s.targetPos
    ∧ (stepN (max (((s.targetPos - s.currentPos).natAbs + 1) / 2) 1) s).moving = false
    ∧ (∀ k, 1 ≤ k →
        ((stepN k s).moving = false ↔ (stepN k s).currentPos = s.targetPos))
    ∧ (∀ k, min s.currentPos s.targetPos ≤ (stepN k s).currentPos
        ∧ (stepN k s).currentPos ≤ max s.currentPos s.targetPos) := by
  refine ⟨?_, ?_, ?_, fun k => stepN_between k s⟩
  · exact (stepN_reaches _ s hm (by omega)).1
  · exact (stepN_reaches _ s hm (by omega)).2 (by omega)
  · intro k hk
    obtain ⟨j, rfl⟩ : ∃ j, k = j + 1 := ⟨k - 1, by omega⟩
    have hs := stepN_sync j (dueStep s) (dueStep_sync s hm)
    have ht : (stepN j (dueStep s)).targetPos = s.targetPos := by
      rw [stepN_targetPos, dueStep_targetPos]
    show (stepN j (dueStep s)).moving = false ↔
      (stepN j (dueStep s)).currentPos = s.targetPos
    rw [← ht]
    exact hs

/-- Witness for C2: head axis at 90 moving to 100 converges in 5 effective
    steps with the moving flag cleared. -/
theorem servo_step_convergence_witness :
    (stepN 5 (⟨90, 100, 0, true, 45, 135, "HEAD"⟩ : ServoState)).currentPos = 100
    ∧ (stepN 5 (⟨90, 100, 0, true, 45, 135, "HEAD"⟩ : ServoState)).moving = false := by
  have h := servo_step_convergence ⟨90, 100, 0, true, 45, 135, "HEAD"⟩ rfl
    (by decide) (by decide)
  exact ⟨h.1, h.2.1⟩

/-- C3: each single-slot mailbox (emotion, head, reset) is last-write-wins —
    a second post before a drain overwrites the first and only the second
    payload is observed — and each posted command is drained at most once:
    the drain clears the pending flag, and a drain on an empty mailbox is a
    no-op, so nothing is lost except by overwrite before the drain. -/
theorem mailbox_last_write_wins_drain_once
    (s : RobotState) (v1 v2 : String) (n1 a1 a2 : Int)
    (now now2 : Nat) (rnd rnd2 : Int) (rb : Nat)
    (hE : s.pendingEmotion = false) (hH : s.pendingHead = false)
    (hR : s.pendingReset = false) (hRA : s.resetAcknowledged = false) :
    ((onReceiveHandler ⟨some v2⟩ (onReceiveHandler ⟨some v1⟩ s).1).1.pendingEmotionValue
        = toLowerCase v2)
    ∧ ((processEmotionRequest now
          (onReceiveHandler ⟨some v2⟩ (onReceiveHandler ⟨some v1⟩ s).1).1).current_emotion
        = toLowerCase v2)
    ∧ ((processEmotionRequest now
          (onReceiveHandler ⟨some v2⟩ (onReceiveHandler ⟨some v1⟩ s).1).1).pendingEmotion
        = false)
    ∧ ((processEmotionRequest now (onReceiveHandler ⟨some v1⟩ s).1).current_emotion
        = toLowerCase v1)
    ∧ (processEmotionRequest now s = s)
    ∧ (processEmotionRequest now2 (processEmotionRequest now (onReceiveHandler ⟨some v1⟩ s).1)
        = processEmotionRequest now (onReceiveHandler ⟨some v1⟩ s).1)
    ∧ ((onHeadHandler ⟨none, some a2⟩ (onHeadHandler ⟨none, some a1⟩ s).1).1.pendingHeadAngle
        = a2)
    ∧ ((onHeadHandler ⟨none, some a1⟩ (onHeadHandler ⟨some n1, none⟩ s).1).1.pendingHeadAngle
          = a1
       ∧ (onHeadHandler ⟨none, some a1⟩ (onHeadHandler ⟨some n1, none⟩ s).1).1.pendingHeadNumber
          = -1)
    ∧ ((processHeadRequest now rnd (onHeadHandler ⟨none, some a1⟩ s).1).pendingHead = false)
    ∧ (processHeadRequest now rnd s = s)
    ∧ (processHeadRequest now2 rnd2
          (processHeadRequest now rnd (onHeadHandler ⟨none, some a1⟩ s).1)
        = processHeadRequest now rnd (onHeadHandler ⟨none, some a1⟩ s).1)
    ∧ ((onResetHandler (onResetHandler s).1).1.pendingReset = true)
    ∧ ((processResetRequest now rb (onResetHandler s).1).pendingReset = false)
    ∧ (processResetRequest now rb s = s) := by
  refine ⟨rfl, ?_, processEmotionRequest_clears _ _, ?_,
    processEmotionRequest_not_pending _ _ hE,
    processEmotionRequest_not_pending _ _ (processEmotionRequest_clears _ _),
    rfl, ⟨rfl, rfl⟩,
    processHeadRequest_clears _ _ _,
    processHeadRequest_not_pending _ _ _ hH,
    processHeadRequest_not_pending _ _ _ (processHeadRequest_clears _ _ _),
    rfl, ?_,
    processResetRequest_idle _ _ _ hR hRA⟩
  · unfold processEmotionRequest onReceiveHandler
    simp only [if_true]
    split_ifs <;> rfl
  · unfold processEmotionRequest onReceiveHandler
    simp only [if_true]
    split_ifs <;> rfl
  · unfold processResetRequest onResetHandler
    simp only [hRA, if_true, and_true]
    split_ifs <;> rfl

/-- Witness for C3 at concrete posts on the initial state. -/
theorem mailbox_last_write_wins_drain_once_witness :
    ((onReceiveHandler ⟨some "B"⟩ (onReceiveHandler ⟨some "A"⟩ initialState).1).1.pendingEmotionValue
        = "b")
    ∧ (processHeadRequest 10 0 initialState = initialState)
    ∧ ((processResetRequest 40 3000 (onResetHandler initialState).1).pendingReset = false) := by
  obtain ⟨h1, _, _, _, _, _, _, _, _, h10, _, _, h13, _⟩ :=
    mailbox_last_write_wins_drain_once initialState "A" "B" 2 100 120 10 20 0 0 3000
      rfl rfl rfl rfl
  exact ⟨h1.trans (by decide), h10, h13⟩

/-- C4 counterexample: in the sketch_aug2a variant, a head-angle command
    posted while emotion mode is active is rejected with 503 and never enters
    the task slot, so the claim that such a request is accepted into the
    mailbox (request succeeds) is false there. -/
theorem head_post_rejected_in_sketch_variant :
    ((Sketch.handleHeadRequest ⟨none, some 100⟩ sketchEmotionActiveState).2.code = 503)
    ∧ ((Sketch.handleHeadRequest ⟨none, some 100⟩ sketchEmotionActiveState).1.currentTask.has_head_task = false)
    ∧ ¬((Sketch.handleHeadRequest ⟨none, some 100⟩ sketchEmotionActiveState).2.code = 200) := by
  decide

/-- C4 (amended): in part_000/part_001 a head-angle command posted while
    emotion mode is active is accepted (200) into the head mailbox, and the
    drain while emotion mode is active discards it without touching the head
    axis; in every reachable state (indeed in every state), the head-command
    drain leaves the head axis untouched while emotion mode is active.  In
    the sketch_aug2a variant such a request is instead rejected with 503 and
    leaves the state unchanged. -/
theorem emotion_mode_head_gate
    (s : RobotState) (a : Int) (now : Nat) (rnd : Int)
    (hA : s.emotion_mode_active = true)
    (t : Sketch.SketchState) (hA2 : t.emotion_mode_active = true) (d : HeadDoc) :
    ((onHeadHandler ⟨none, some a⟩ s).2.code = 200)
    ∧ ((onHeadHandler ⟨none, some a⟩ s).1.pendingHead = true
       ∧ (onHeadHandler ⟨none, some a⟩ s).1.pendingHeadAngle = a)
    ∧ ((processHeadRequest now rnd (onHeadHandler ⟨none, some a⟩ s).1).headState
        = s.headState)
    ∧ (∀ s2 : RobotState, s2.emotion_mode_active = true →
        (processHeadRequest now rnd s2).headState = s2.headState)
    ∧ ((Sketch.handleHeadRequest d t).2.code = 503
       ∧ (Sketch.handleHeadRequest d t).1 = t) := by
  refine ⟨rfl, ⟨rfl, rfl⟩, ?_, ?_, ?_⟩
  · simp [onHeadHandler, processHeadRequest, hA]
  · intro s2 h2
    rw [processHeadRequest_gate_closed now rnd s2 h2]
    split_ifs <;> rfl
  · simp [Sketch.handleHeadRequest, hA2]

/-- Witness for C4 (amended) at a concrete emotion-active state. -/
theorem emotion_mode_head_gate_witness :
    ((onHeadHandler ⟨none, some 100⟩ robotEmotionActiveState).2.code = 200)
    ∧ ((processHeadRequest 10 0 (onHeadHandler ⟨none, some 100⟩ robotEmotionActiveState).1).headState
        = robotEmotionActiveState.headState)
    ∧ ((Sketch.handleHeadRequest ⟨none, some 100⟩ sketchEmotionActiveState).2.code = 503) := by
  obtain ⟨h1, _, h3, _, h5⟩ :=
    emotion_mode_head_gate robotEmotionActiveState 100 10 0 rfl
      sketchEmotionActiveState rfl ⟨none, some 100⟩
  exact ⟨h1, h3, h5.1⟩

/-- C5 counterexample: a reachable state (the `c5` trace: direct head moves
    to 85 then 88, then the unrecognized emotion "xyz") has emotion mode
    active with the head target at 88; when the timeout fires, the head
    target stays 88 — inside the 2-degree deadband of `moveServoSafely` —
    so the tick does not restore the default neutral pose target of 90. -/
theorem emotion_timeout_deadband_counterexample :
    (c5s3.emotion_mode_active = true)
    ∧ (EMOTION_MODE_DURATION < 12500 - c5s3.emotion_mode_start)
    ∧ (c5s4 = loopIter 12500 0 3000 3000 c5s3)
    ∧ (c5s4.emotion_mode_active = false)
    ∧ (c5s4.current_emotion = "happy")
    ∧ (c5s4.head_tracking_enabled = true)
    ∧ (c5s3.headState.targetPos = 88)
    ∧ (c5s4.headState.targetPos = 88)
    ∧ ¬(c5s4.headState.targetPos = 90) := by
  decide

/-- C5 (amended): when emotion mode is active and the timeout has elapsed,
    the next tick clears `emotion_mode_active`, resets the label to the
    happy default, re-enables head tracking, and requests the neutral pose
    (head 90, left arm 180, right arm 0) via `moveServoSafely`; each axis
    target becomes the neutral value when it was more than 2 degrees away,
    and is left unchanged when it was already within the 2-degree deadband. -/
theorem emotion_timeout_reset_behavior
    (s : RobotState) (now : Nat)
    (hA : s.emotion_mode_active = true)
    (hT : EMOTION_MODE_DURATION < now - s.emotion_mode_start)
    (hhmin : s.headState.minPos = 45) (hhmax : s.headState.maxPos = 135)
    (hlmin : s.leftArmState.minPos = 0) (hlmax : s.leftArmState.maxPos = 180)
    (hrmin : s.rightArmState.minPos = 0) (hrmax : s.rightArmState.maxPos = 180) :
    ((loopTimeoutCheck now s).emotion_mode_active = false)
    ∧ ((loopTimeoutCheck now s).head_tracking_enabled = true)
    ∧ ((loopTimeoutCheck now s).current_emotion = "happy")
    ∧ ((loopTimeoutCheck now s).current_sentiment = "happy")
    ∧ ((loopTimeoutCheck now s).headState = moveServoSafely s.headState 90)
    ∧ ((loopTimeoutCheck now s).leftArmState = moveServoSafely s.leftArmState 180)
    ∧ ((loopTimeoutCheck now s).rightArmState = moveServoSafely s.rightArmState 0)
    ∧ (2 < (s.headState.targetPos - 90).natAbs →
        (loopTimeoutCheck now s).headState.targetPos = 90)
    ∧ ((s.headState.targetPos - 90).natAbs ≤ 2 →
        (loopTimeoutCheck now s).headState.targetPos = s.headState.targetPos)
    ∧ (2 < (s.leftArmState.targetPos - 180).natAbs →
        (loopTimeoutCheck now s).leftArmState.targetPos = 180)
    ∧ ((s.leftArmState.targetPos - 180).natAbs ≤ 2 →
        (loopTimeoutCheck now s).leftArmState.targetPos = s.leftArmState.targetPos)
    ∧ (2 < (s.rightArmState.targetPos - 0).natAbs →
        (loopTimeoutCheck now s).rightArmState.targetPos = 0)
    ∧ ((s.rightArmState.targetPos - 0).natAbs ≤ 2 →
        (loopTimeoutCheck now s).rightArmState.targetPos = s.rightArmState.targetPos) := by
  have hch : constrain 90 45 135 = 90 := by decide
  have hcl : constrain 180 0 180 = 180 := by decide
  have hcr : constrain 0 0 180 = 0 := by decide
  unfold loopTimeoutCheck
  rw [if_pos ⟨hA, hT⟩]
  dsimp only
  refine ⟨rfl, rfl, rfl, rfl, rfl, rfl, rfl, ?_, ?_, ?_, ?_, ?_, ?_⟩
  · intro h
    unfold moveServoSafely
    rw [hhmin, hhmax, hch, if_pos h]
  · intro h
    unfold moveServoSafely
    rw [hhmin, hhmax, hch, if_neg (by omega)]
  · intro h
    unfold moveServoSafely
    rw [hlmin, hlmax, hcl, if_pos h]
  · intro h
    unfold moveServoSafely
    rw [hlmin, hlmax, hcl, if_neg (by omega)]
  · intro h
    unfold moveServoSafely
    rw [hrmin, hrmax, hcr, if_pos h]
  · intro h
    unfold moveServoSafely
    rw [hrmin, hrmax, hcr, if_neg (by omega)]

/-- Witness for C5 (amended) at the reachable trace state `c5s3`. -/
theorem emotion_timeout_reset_behavior_witness :
    ((loopTimeoutCheck 12500 c5s3).emotion_mode_active = false)
    ∧ ((loopTimeoutCheck 12500 c5s3).headState.targetPos = c5s3.headState.targetPos) := by
  obtain ⟨w1, _, _, _, _, _, _, _, w9, _, _, _, _⟩ :=
    emotion_timeout_reset_behavior c5s3 12500 (by decide) (by decide)
      (by decide) (by decide) (by decide) (by decide) (by decide) (by decide)
  exact ⟨w1, w9 (by decide)⟩

/-- C6 counterexample: in the sketch_aug2a variant, `POST /receive` with
    sentiment "ANGRY" is accepted but queued and stored verbatim — the
    stored emotion is "ANGRY", not "angry" — so the claim that every
    sentiment received on `POST /receive` is lower-cased is false there. -/
theorem sketch_receive_no_lowercase :
    ((Sketch.handleReceiveRequest ⟨some "ANGRY"⟩ Sketch.initialSketchState).2.code = 200)
    ∧ ((Sketch.handleReceiveRequest ⟨some "ANGRY"⟩ Sketch.initialSketchState).1.currentTask.emotion_data = "ANGRY")
    ∧ ((Sketch.processSimpleTasks 100 (Sketch.handleReceiveRequest ⟨some "ANGRY"⟩ Sketch.initialSketchState).1).current_emotion = "ANGRY")
    ∧ ¬((Sketch.processSimpleTasks 100 (Sketch.handleReceiveRequest ⟨some "ANGRY"⟩ Sketch.initialSketchState).1).current_emotion = "angry") := by
  decide

set_option maxRecDepth 8000 in
/-- C6 (amended): in part_000/part_001 every sentiment posted to
    `POST /receive` is lower-cased before queuing, so posting "ANGRY" queues
    and stores "angry", sets the emotion-mode flag, and the status JSON
    reports emotion "angry"; in the sketch_aug2a variant the sentiment is
    queued verbatim without lower-casing. -/
theorem receive_lowercases_sentiment
    (s : RobotState) (sent : String) (now : Nat)
    (t : Sketch.SketchState) (hbusy : t.server_busy = false) :
    ((onReceiveHandler ⟨some sent⟩ s).1.pendingEmotionValue = toLowerCase sent)
    ∧ ((onReceiveHandler ⟨some sent⟩ s).2.code = 200)
    ∧ ((processEmotionRequest now (onReceiveHandler ⟨some sent⟩ s).1).current_emotion
        = toLowerCase sent)
    ∧ ((processEmotionRequest now (onReceiveHandler ⟨some sent⟩ s).1).current_sentiment
        = toLowerCase sent)
    ∧ ((processEmotionRequest now (onReceiveHandler ⟨some sent⟩ s).1).emotion_mode_active
        = true)
    ∧ ((onReceiveHandler ⟨some "ANGRY"⟩ initialState).1.pendingEmotionValue = "angry")
    ∧ (statusJson (processEmotionRequest 300 (onReceiveHandler ⟨some "ANGRY"⟩ initialState).1)
          false false false false 0 300
        = "\x7b\"emotion\":\"angry\",\"sentiment\":\"angry\",\"head_pos\":90,\"left_arm_pos\":180,\"right_arm_pos\":0,\"emotion_mode\":true,\"head_tracking\":false,\"left_oled\":false,\"right_oled\":false,\"led_strip\":false,\"wifi_connected\":false,\"eyes_open\":true,\"blinking\":false,\"reset_pending\":false,\"free_heap\":0,\"uptime\":300\x7d")
    ∧ ((Sketch.handleReceiveRequest ⟨some sent⟩ t).1.currentTask.emotion_data = sent) := by
  refine ⟨rfl, rfl, ?_, ?_, ?_, rfl, ?_, ?_⟩
  · unfold processEmotionRequest onReceiveHandler
    simp only [if_true]
    split_ifs <;> rfl
  · unfold processEmotionRequest onReceiveHandler
    simp only [if_true]
    split_ifs <;> rfl
  · unfold processEmotionRequest onReceiveHandler
    simp only [if_true]
    split_ifs <;> rfl
  · show statusJson (processEmotionRequest 300 (onReceiveHandler ⟨some "ANGRY"⟩ initialState).1)
        false false false false 0 300 = _
    rfl
  · simp [Sketch.handleReceiveRequest, hbusy]

/-- Witness for C6 (amended) at a mixed-case sentiment. -/
theorem receive_lowercases_sentiment_witness :
    ((onReceiveHandler ⟨some "MiXeD"⟩ initialState).1.pendingEmotionValue = "mixed")
    ∧ ((Sketch.handleReceiveRequest ⟨some "MiXeD"⟩ Sketch.initialSketchState).1.currentTask.emotion_data = "MiXeD") := by
  obtain ⟨w1, _, _, _, _, _, _, w8⟩ :=
    receive_lowercases_sentiment initialState "MiXeD" 5 Sketch.initialSketchState rfl
  exact ⟨w1.trans (by decide), w8⟩

/-- C7 counterexample: in part_000's `onHeadHandler`, a body carrying both
    `"number": 3` and `"angle": 100` queues the number command — the mailbox
    holds number 3 with the angle slot at the -1 sentinel and the response
    says `head_number_queued` — so the claim that the angle takes precedence
    is false on this handler. -/
theorem head_number_takes_precedence_counterexample :
    ((onHeadHandler ⟨some 3, some 100⟩ initialState).1.pendingHeadNumber = 3)
    ∧ ((onHeadHandler ⟨some 3, some 100⟩ initialState).1.pendingHeadAngle = -1)
    ∧ ((onHeadHandler ⟨some 3, some 100⟩ initialState).2.body
        = "\x7b\"status\":\"head_number_queued\",\"number\":3\x7d")
    ∧ ¬((onHeadHandler ⟨some 3, some 100⟩ initialState).1.pendingHeadAngle = 100) := by
  decide

/-- C7 (amended): when both fields are present, part_000/part_001's
    `onHeadHandler` gives the `number` field precedence (the queued command
    carries the number and the angle is discarded), while sketch_aug2a's
    `handleHeadRequest` gives the `angle` field precedence. -/
theorem head_field_precedence_by_variant
    (s : RobotState) (n a : Int) (t : Sketch.SketchState)
    (hbusy : t.server_busy = false) (hmode : t.emotion_mode_active = false) :
    ((onHeadHandler ⟨some n, some a⟩ s).1.pendingHeadNumber = n
     ∧ (onHeadHandler ⟨some n, some a⟩ s).1.pendingHeadAngle = -1
     ∧ (onHeadHandler ⟨some n, some a⟩ s).2.code = 200)
    ∧ ((Sketch.handleHeadRequest ⟨some n, some a⟩ t).1.currentTask.head_angle = a
       ∧ (Sketch.handleHeadRequest ⟨some n, some a⟩ t).1.currentTask.has_head_task = true
       ∧ (Sketch.handleHeadRequest ⟨some n, some a⟩ t).2.code = 200) := by
  refine ⟨⟨rfl, rfl, rfl⟩, ?_⟩
  simp [Sketch.handleHeadRequest, hbusy, hmode]

/-- Witness for C7 (amended) at a concrete both-fields body. -/
theorem head_field_precedence_by_variant_witness :
    ((onHeadHandler ⟨some 2, some 105⟩ initialState).1.pendingHeadNumber = 2)
    ∧ ((Sketch.handleHeadRequest ⟨some 2, some 105⟩ Sketch.initialSketchState).1.currentTask.head_angle = 105) := by
  obtain ⟨⟨w1, _, _⟩, w4, _, _⟩ :=
    head_field_precedence_by_variant initialState 2 105 Sketch.initialSketchState rfl rfl
  exact ⟨w1, w4⟩

/-- C8: the `POST /head_position` mapping is the Arduino linear `map` of x
    over [0, frame_width] onto the head axis limits [45, 135]: x = 0 queues
    45, x = frame_width queues 135, and for even frame_width = 2h, x = h
    queues the midpoint 90, all in exact integer arithmetic. -/
theorem head_position_linear_map
    (s : RobotState) (fw : Int) (hfw : 0 < fw)
    (hA : s.emotion_mode_active = false) (hT : s.head_tracking_enabled = true)
    (hmin : s.headState.minPos = 45) (hmax : s.headState.maxPos = 135) :
    ((onHeadPositionHandler ⟨some 0, some fw⟩ s).1.pendingHeadAngle = 45)
    ∧ ((onHeadPositionHandler ⟨some fw, some fw⟩ s).1.pendingHeadAngle = 135)
    ∧ (∀ h : Int, fw = 2 * h →
        (onHeadPositionHandler ⟨some h, some fw⟩ s).1.pendingHeadAngle = 90)
    ∧ (arduinoMap 0 0 fw 45 135 = 45 ∧ arduinoMap fw 0 fw 45 135 = 135) := by
  have hne : fw ≠ 0 := by omega
  have h90 : (135 : Int) - 45 = 90 := by norm_num
  have m1 : arduinoMap 0 0 fw 45 135 = 45 := by
    unfold arduinoMap
    norm_num
  have m2 : arduinoMap fw 0 fw 45 135 = 135 := by
    unfold arduinoMap
    rw [sub_zero, h90, Int.mul_tdiv_cancel_left 90 hne]
    norm_num
  have m3 : ∀ h : Int, fw = 2 * h → arduinoMap h 0 fw 45 135 = 90 := by
    intro h hh
    have hne2 : (2 : Int) * h ≠ 0 := by omega
    unfold arduinoMap
    rw [sub_zero, sub_zero, h90, hh,
      show h * 90 = 2 * h * 45 by ring, Int.mul_tdiv_cancel_left 45 hne2]
    norm_num
  refine ⟨?_, ?_, ?_, m1, m2⟩
  · show (onHeadPositionHandler ⟨some 0, some fw⟩ s).1.pendingHeadAngle = 45
    unfold onHeadPositionHandler
    dsimp only
    rw [if_pos ⟨hA, hT⟩]
    dsimp only
    rw [hmin, hmax]
    exact m1
  · show (onHeadPositionHandler ⟨some fw, some fw⟩ s).1.pendingHeadAngle = 135
    unfold onHeadPositionHandler
    dsimp only
    rw [if_pos ⟨hA, hT⟩]
    dsimp only
    rw [hmin, hmax]
    exact m2
  · intro h hh
    show (onHeadPositionHandler ⟨some h, some fw⟩ s).1.pendingHeadAngle = 90
    unfold onHeadPositionHandler
    dsimp only
    rw [if_pos ⟨hA, hT⟩]
    dsimp only
    rw [hmin, hmax]
    exact m3 h hh

/-- Witness for C8 at the spec's 640-pixel frame. -/
theorem head_position_linear_map_witness :
    ((onHeadPositionHandler ⟨some 0, some 640⟩ initialState).1.pendingHeadAngle = 45)
    ∧ ((onHeadPositionHandler ⟨some 640, some 640⟩ initialState).1.pendingHeadAngle = 135)
    ∧ ((onHeadPositionHandler ⟨some 320, some 640⟩ initialState).1.pendingHeadAngle = 90) := by
  obtain ⟨w1, w2, w3, _⟩ :=
    head_position_linear_map initialState 640 (by norm_num) rfl rfl rfl rfl
  exact ⟨w1, w2, w3 320 (by norm_num)⟩

/-- C9: `updateServoPositions` is exactly the axis-local step applied to each
    of the three axes — each axis's update reads and writes only that axis's
    state — and the axis step mutates only `currentPos`, `lastMoveTime` and
    `moving`, preserving `targetPos`, `minPos`, `maxPos` and `name`. -/
theorem updateServoPositions_frame (now : Nat) (s : RobotState) (a : ServoState) :
    (updateServoPositions now s
      = { s with headState := stepAxis now s.headState,
                 leftArmState := stepAxis now s.leftArmState,
                 rightArmState := stepAxis now s.rightArmState })
    ∧ ((stepAxis now a).targetPos = a.targetPos
       ∧ (stepAxis now a).minPos = a.minPos
       ∧ (stepAxis now a).maxPos = a.maxPos
       ∧ (stepAxis now a).name = a.name) := by
  refine ⟨?_, stepAxis_preserve now a⟩
  by_cases h1 : s.headState.moving = true ∧ SERVO_MOVE_DELAY ≤ now - s.headState.lastMoveTime <;>
  by_cases h2 : s.leftArmState.moving = true ∧ SERVO_MOVE_DELAY ≤ now - s.leftArmState.lastMoveTime <;>
  by_cases h3 : s.rightArmState.moving = true ∧ SERVO_MOVE_DELAY ≤ now - s.rightArmState.lastMoveTime <;>
  simp [updateServoPositions, stepAxis, h1, h2, h3]

/-- C10: posting `POST /head` with angle -1 is accepted with a 200
    `head_angle_queued` response, but -1 is also the internal "no angle"
    sentinel, so the drained command matches neither the direct-angle branch
    nor the person-count branch: even with the gate open (emotion mode off,
    tracking on) the head axis is left completely unchanged. -/
theorem head_angle_minus_one_sentinel
    (s : RobotState) (now : Nat) (rnd : Int)
    (hA : s.emotion_mode_active = false) (hT : s.head_tracking_enabled = true) :
    ((onHeadHandler ⟨none, some (-1)⟩ s).2.code = 200)
    ∧ ((onHeadHandler ⟨none, some (-1)⟩ s).2.body
        = "\x7b\"status\":\"head_angle_queued\",\"angle\":-1\x7d")
    ∧ ((onHeadHandler ⟨none, some (-1)⟩ s).1.pendingHead = true)
    ∧ ((processHeadRequest now rnd (onHeadHandler ⟨none, some (-1)⟩ s).1).headState
        = s.headState)
    ∧ ((processHeadRequest now rnd (onHeadHandler ⟨none, some (-1)⟩ s).1).pendingHead
        = false) := by
  refine ⟨rfl, rfl, rfl, ?_, processHeadRequest_clears _ _ _⟩
  simp [onHeadHandler, processHeadRequest, hA, hT]

/-- Witness for C10 at the initial state. -/
theorem head_angle_minus_one_sentinel_witness :
    ((onHeadHandler ⟨none, some (-1)⟩ initialState).2.code = 200)
    ∧ ((processHeadRequest 50 0 (onHeadHandler ⟨none, some (-1)⟩ initialState).1).headState
        = initialState.headState) := by
  obtain ⟨w1, _, _, w4, _⟩ :=
    head_angle_minus_one_sentinel initialState 50 0 rfl rfl
  exact ⟨w1, w4⟩

end Robot
